import Mathlib

/-!
Shallow embedding of the merge orchestration core of CodeMergeBot
(src/server/routes.ts, class AIMergerService, and the POST
/api/merge-jobs/:id/merge route handler).

External reasoning-provider calls (OpenAI / Anthropic chat completions
followed by JSON.parse) are modelled as oracle functions returning
`Except Unit _`: `Except.error ()` stands for any thrown exception during
the call or during parsing, and `Except.ok r` for a successfully parsed
JSON object `r`.  Fields that JavaScript reads with truthiness semantics
(`response.hasConflict`, `response.mergedContent || fileA.content`,
`response.changes || []`) are modelled as `Option` fields together with
explicit JS-falsiness helpers.
-/

namespace CodeMergeBot

/-- A repository file, from `GitHubFile` in src/server/services/github.ts:
`{ path, content, type, sha }`. -/
structure GitHubFile where
  path : String
  content : String
  type : String
  sha : String
deriving DecidableEq, Repr

/-- The `type` tag of a `Change` in src/server/routes.ts:
`"added" | "removed" | "modified"`. -/
inductive ChangeType where
  | added
  | removed
  | modified
deriving DecidableEq, Repr

/-- The `source` tag of a `Change`:
`"workspace_a" | "workspace_b" | "ai_generated"`. -/
inductive ChangeSource where
  | workspace_a
  | workspace_b
  | ai_generated
deriving DecidableEq, Repr

/-- `Change` interface: `{ type, lineNumber, content, source }`. -/
structure Change where
  type : ChangeType
  lineNumber : Nat
  content : String
  source : ChangeSource
deriving DecidableEq, Repr

/-- `MergedFile` interface: `{ path, content, type, changes }`. -/
structure MergedFile where
  path : String
  content : String
  type : String
  changes : List Change
deriving DecidableEq, Repr

/-- `ConflictOption` interface: `{ id, description, preview }`. -/
structure ConflictOption where
  id : String
  description : String
  preview : String
deriving DecidableEq, Repr

/-- `Conflict` interface: `{ filePath, type, description, recommendation,
options }`.  The `type` field is kept as a plain string since the parsed
JSON value is stored without validation. -/
structure Conflict where
  filePath : String
  type : String
  description : String
  recommendation : String
  options : List ConflictOption
deriving DecidableEq, Repr

/-- `MergeSummary` interface: `{ totalFiles, mergedFiles,
conflictsResolved, linesAdded, recommendations }`. -/
structure MergeSummary where
  totalFiles : Nat
  mergedFiles : Nat
  conflictsResolved : Nat
  linesAdded : Nat
  recommendations : List String
deriving DecidableEq, Repr

/-- `MergeResult` interface: `{ mergedFiles, conflicts, summary }`. -/
structure MergeResult where
  mergedFiles : List MergedFile
  conflicts : List Conflict
  summary : MergeSummary
deriving DecidableEq, Repr

/-- The JSON verdict shape requested by `analyzeFileConflict`:
`{ hasConflict, type, description, recommendation }`.  `hasConflict` is an
`Option Bool` because a parsed-but-malformed response (for example `{}`)
leaves the field `undefined`, which is falsy in JavaScript. -/
structure ConflictVerdict where
  hasConflict : Option Bool
  type : String
  description : String
  recommendation : String
deriving DecidableEq, Repr

/-- The JSON response shape requested by `mergeFileContents`:
`{ mergedContent, changes }`.  Both fields are optional because the code
reads them as `response.mergedContent || fileA.content` and
`response.changes || []`. -/
structure FusionResponse where
  mergedContent : Option String
  changes : Option (List Change)
deriving DecidableEq, Repr

/-- Abstraction of the polymorphic reasoning provider used by
`AIMergerService` (OpenAI or Anthropic): one oracle per prompt shape.
`Except.error ()` models a thrown exception during the provider call or
during `JSON.parse` of its response. -/
structure ReasoningProvider where
  analyzeCall : GitHubFile → GitHubFile → Except Unit ConflictVerdict
  fuseCall : GitHubFile → GitHubFile → Except Unit FusionResponse

/-- JavaScript truthiness of an optional boolean field:
`undefined` and `false` are falsy. -/
def jsTruthy (o : Option Bool) : Bool :=
  o.getD false

/-- JavaScript `a || b` on an optional string `a`:
`undefined` and the empty string are falsy and select `b`. -/
def jsOrString (o : Option String) (d : String) : String :=
  match o with
  | none => d
  | some s => if s = "" then d else s

/-- JavaScript `content.substring(0, n)`: the first `n` characters. -/
def takeChars (s : String) (n : Nat) : String :=
  String.mk (s.data.take n)

/-- `AIMergerService.analyzeFileStructures` result record. -/
structure FileAnalysis where
  commonFiles : List GitHubFile
  uniqueToA : List GitHubFile
  uniqueToB : List GitHubFile
deriving DecidableEq, Repr

/-- `AIMergerService.analyzeFileStructures` (src/server/routes.ts lines
400-409): partition by path-set membership.  `commonFiles` are the Side-A
files whose path also occurs in Side B. -/
def analyzeFileStructures (workspaceA workspaceB : List GitHubFile) :
    FileAnalysis :=
  let aFiles := workspaceA.map (·.path)
  let bFiles := workspaceB.map (·.path)
  { commonFiles := workspaceA.filter (fun f => decide (f.path ∈ bFiles))
    uniqueToA := workspaceA.filter (fun f => decide (f.path ∉ bFiles))
    uniqueToB := workspaceB.filter (fun f => decide (f.path ∉ aFiles)) }

/-- `AIMergerService.analyzeFileConflict` (lines 431-503): call the
provider; on a thrown exception return `null`; otherwise emit a
`Conflict` exactly when the parsed verdict's `hasConflict` is truthy,
with the fixed three-option list. -/
def analyzeFileConflict (provider : ReasoningProvider)
    (fileA fileB : GitHubFile) : Option Conflict :=
  match provider.analyzeCall fileA fileB with
  | Except.error _ => none
  | Except.ok response =>
    if jsTruthy response.hasConflict then
      some
        { filePath := fileA.path
          type := response.type
          description := response.description
          recommendation := response.recommendation
          options :=
            [ { id := "use_a"
                description := "Use Version A"
                preview := takeChars fileA.content 200 ++ "..." }
            , { id := "use_b"
                description := "Use Version B"
                preview := takeChars fileB.content 200 ++ "..." }
            , { id := "ai_merge"
                description := "AI Recommended Merge"
                preview := response.recommendation } ] }
    else none

/-- `AIMergerService.detectConflicts` (lines 411-429): walk the common
files, look the path up in Side B, and for each pair with differing
content append the analyzer's conflict when it returns one. -/
def detectConflicts (provider : ReasoningProvider)
    (workspaceA workspaceB : List GitHubFile) : List Conflict :=
  let analysis := analyzeFileStructures workspaceA workspaceB
  analysis.commonFiles.filterMap (fun fileA =>
    match workspaceB.find? (fun f => f.path == fileA.path) with
    | some fileB =>
      if fileA.content ≠ fileB.content then
        analyzeFileConflict provider fileA fileB
      else none
    | none => none)

/-- `AIMergerService.mergeFileContents` (lines 554-631): identical-content
fast path; otherwise call the provider and read
`response.mergedContent || fileA.content` and `response.changes || []`;
any thrown exception falls back to Side A's content with no changes. -/
def mergeFileContents (provider : ReasoningProvider)
    (fileA fileB : GitHubFile) : MergedFile :=
  if fileA.content = fileB.content then
    { path := fileA.path
      content := fileA.content
      type := fileA.type
      changes := [] }
  else
    match provider.fuseCall fileA fileB with
    | Except.ok response =>
      { path := fileA.path
        content := jsOrString response.mergedContent fileA.content
        type := fileA.type
        changes := response.changes.getD [] }
    | Except.error _ =>
      { path := fileA.path
        content := fileA.content
        type := fileA.type
        changes := [] }

/-- `AIMergerService.performAIMerge` (lines 505-552): unique files of each
side become single-`added`-change merged files without any provider call;
common files are fused pairwise (the `conflicts` argument is accepted but
unused, as in the source). -/
def performAIMerge (provider : ReasoningProvider)
    (workspaceA workspaceB : List GitHubFile)
    (conflicts : List Conflict) : List MergedFile :=
  let analysis := analyzeFileStructures workspaceA workspaceB
  let _ := conflicts
  (analysis.uniqueToA.map (fun file =>
    { path := file.path
      content := file.content
      type := file.type
      changes :=
        [ { type := ChangeType.added
            lineNumber := 1
            content := file.content
            source := ChangeSource.workspace_a } ] }))
  ++ (analysis.uniqueToB.map (fun file =>
    { path := file.path
      content := file.content
      type := file.type
      changes :=
        [ { type := ChangeType.added
            lineNumber := 1
            content := file.content
            source := ChangeSource.workspace_b } ] }))
  ++ (analysis.commonFiles.filterMap (fun fileA =>
    (workspaceB.find? (fun f => f.path == fileA.path)).map
      (fun fileB => mergeFileContents provider fileA fileB)))

/-- `AIMergerService.generateSummary` (lines 633-662). -/
def generateSummary (workspaceA workspaceB : List GitHubFile)
    (mergedFiles : List MergedFile) (conflicts : List Conflict) :
    MergeSummary :=
  let totalFiles :=
    ((workspaceA.map (·.path)) ++ (workspaceB.map (·.path))).dedup.length
  let linesAdded :=
    (mergedFiles.map (fun file =>
      (file.changes.filter (fun c => decide (c.type = ChangeType.added))).length)).sum
  { totalFiles := totalFiles
    mergedFiles := mergedFiles.length
    conflictsResolved := conflicts.length
    linesAdded := linesAdded
    recommendations :=
      [ "Review merged files for proper functionality"
      , "Test the integrated codebase thoroughly"
      , "Update documentation to reflect changes"
      , "Consider refactoring common patterns" ] }

/-- `AIMergerService.mergeWorkspaces` (lines 373-398), the pure pipeline:
classify, detect conflicts, merge, summarise. -/
def mergeWorkspaces (provider : ReasoningProvider)
    (workspaceAFiles workspaceBFiles : List GitHubFile) : MergeResult :=
  let conflicts := detectConflicts provider workspaceAFiles workspaceBFiles
  let mergedFiles :=
    performAIMerge provider workspaceAFiles workspaceBFiles conflicts
  { mergedFiles := mergedFiles
    conflicts := conflicts
    summary :=
      generateSummary workspaceAFiles workspaceBFiles mergedFiles conflicts }

/-- The job record fields touched by the merge route (shared/schema.ts
`mergeJobs` and src/server/routes.ts lines 139-226). -/
structure MergeJob where
  id : String
  workspaceAUrl : String
  workspaceBUrl : String
  status : String
  mergedFiles : Option (List MergedFile)
  conflicts : Option (List Conflict)
  summary : Option MergeSummary
  errorMessage : Option String
deriving DecidableEq, Repr

/-- Outcome of the synchronous part of POST /api/merge-jobs/:id/merge:
404 when the job is missing, 400 when it is not pending, otherwise the
"Merge process started" response. -/
inductive MergeRequestOutcome where
  | notFound
  | rejected (message : String)
  | started
deriving DecidableEq, Repr

/-- The synchronous guard of the merge route (src/server/routes.ts lines
139-153): look the job up; reject unless `status === "pending"`; only then
update the status to `"processing"` and answer that the merge started.
Returns the stored job after the request together with the response. -/
def handleMergeRequest (job? : Option MergeJob) :
    Option MergeJob × MergeRequestOutcome :=
  match job? with
  | none => (none, MergeRequestOutcome.notFound)
  | some job =>
    if job.status ≠ "pending" then
      (some job, MergeRequestOutcome.rejected "Merge job is not in pending status")
    else
      (some { job with status := "processing" }, MergeRequestOutcome.started)

/-- The path list of a file collection. -/
def pathsOf (files : List GitHubFile) : List String :=
  files.map (·.path)

/-- Sample Side-A file sharing its path with `sampleB`. -/
def sampleA : GitHubFile :=
  { path := "x.txt", content := "hello A", type := "text", sha := "sha-a" }

/-- Sample Side-B file sharing its path with `sampleA`, differing content. -/
def sampleB : GitHubFile :=
  { path := "x.txt", content := "hello B", type := "text", sha := "sha-b" }

/-- Sample Side-A file with the same content as `sampleD`. -/
def sampleC : GitHubFile :=
  { path := "x.txt", content := "hello", type := "text", sha := "sha-c" }

/-- Sample Side-B file with the same content as `sampleC`. -/
def sampleD : GitHubFile :=
  { path := "x.txt", content := "hello", type := "text", sha := "sha-d" }

/-- Sample file present only on Side A. -/
def aOnly : GitHubFile :=
  { path := "a.txt", content := "A", type := "text", sha := "sha-1" }

/-- Sample file present only on Side B. -/
def bOnly : GitHubFile :=
  { path := "b.txt", content := "B", type := "text", sha := "sha-2" }

/-- A provider whose every call throws. -/
def failingProvider : ReasoningProvider :=
  { analyzeCall := fun _ _ => Except.error ()
    fuseCall := fun _ _ => Except.error () }

/-- A provider whose fusion response parses but carries neither a
`mergedContent` nor a `changes` field (the JSON was `{}`). -/
def incompleteProvider : ReasoningProvider :=
  { analyzeCall := fun _ _ => Except.error ()
    fuseCall := fun _ _ => Except.ok { mergedContent := none, changes := none } }

/-- A provider whose conflict verdict always reports a conflict. -/
def verdictProvider : ReasoningProvider :=
  { analyzeCall := fun _ _ =>
      Except.ok
        { hasConflict := some true
          type := "content"
          description := "differs"
          recommendation := "combine both" }
    fuseCall := fun _ _ => Except.error () }

/-- The conflict `verdictProvider` produces for `sampleA`/`sampleB`. -/
def sampleConflict : Conflict :=
  { filePath := sampleA.path
    type := "content"
    description := "differs"
    recommendation := "combine both"
    options :=
      [ { id := "use_a"
          description := "Use Version A"
          preview := takeChars sampleA.content 200 ++ "..." }
      , { id := "use_b"
          description := "Use Version B"
          preview := takeChars sampleB.content 200 ++ "..." }
      , { id := "ai_merge"
          description := "AI Recommended Merge"
          preview := "combine both" } ] }

/-- A freshly created job, in status pending. -/
def pendingJob : MergeJob :=
  { id := "job-1"
    workspaceAUrl := "https://github.com/octocat/Hello-World"
    workspaceBUrl := "https://github.com/octocat/Spoon-Knife"
    status := "pending"
    mergedFiles := none
    conflicts := none
    summary := none
    errorMessage := none }

theorem takeChars_length_le (s : String) (n : Nat) :
    (takeChars s n).length ≤ n := by
  show (s.data.take n).length ≤ n
  exact List.length_take_le n s.data

theorem mem_pathsOf {p : String} {files : List GitHubFile} :
    p ∈ pathsOf files ↔ ∃ f ∈ files, f.path = p := by
  simp [pathsOf]

theorem mem_pathsOf_commonFiles (workspaceA workspaceB : List GitHubFile)
    (p : String) :
    p ∈ pathsOf (analyzeFileStructures workspaceA workspaceB).commonFiles ↔
      p ∈ pathsOf workspaceA ∧ p ∈ pathsOf workspaceB := by
  simp only [analyzeFileStructures, pathsOf, List.mem_map, List.mem_filter,
    decide_eq_true_eq]
  constructor
  · rintro ⟨f, ⟨hfA, hfB⟩, rfl⟩
    exact ⟨⟨f, hfA, rfl⟩, hfB⟩
  · rintro ⟨⟨f, hfA, rfl⟩, hB⟩
    exact ⟨f, ⟨hfA, hB⟩, rfl⟩

theorem mem_pathsOf_uniqueToA (workspaceA workspaceB : List GitHubFile)
    (p : String) :
    p ∈ pathsOf (analyzeFileStructures workspaceA workspaceB).uniqueToA ↔
      p ∈ pathsOf workspaceA ∧ p ∉ pathsOf workspaceB := by
  simp only [analyzeFileStructures, pathsOf, List.mem_map, List.mem_filter,
    decide_eq_true_eq, decide_not, Bool.not_eq_true', decide_eq_false_iff_not]
  constructor
  · rintro ⟨f, ⟨hfA, hfB⟩, rfl⟩
    exact ⟨⟨f, hfA, rfl⟩, hfB⟩
  · rintro ⟨⟨f, hfA, rfl⟩, hB⟩
    exact ⟨f, ⟨hfA, hB⟩, rfl⟩

theorem mem_pathsOf_uniqueToB (workspaceA workspaceB : List GitHubFile)
    (p : String) :
    p ∈ pathsOf (analyzeFileStructures workspaceA workspaceB).uniqueToB ↔
      p ∈ pathsOf workspaceB ∧ p ∉ pathsOf workspaceA := by
  simp only [analyzeFileStructures, pathsOf, List.mem_map, List.mem_filter,
    decide_eq_true_eq, decide_not, Bool.not_eq_true', decide_eq_false_iff_not]
  constructor
  · rintro ⟨f, ⟨hfB, hfA⟩, rfl⟩
    exact ⟨⟨f, hfB, rfl⟩, hfA⟩
  · rintro ⟨⟨f, hfB, rfl⟩, hA⟩
    exact ⟨f, ⟨hfB, hA⟩, rfl⟩

/-- Claim C1: for a common pair with differing content, a thrown
reasoning-provider call (or a parse failure, both modelled as
`Except.error ()`) makes `mergeFileContents` return exactly Side A's
content with an empty change list — never Side B's content and never a
partial result. -/
theorem mergeFileContents_fallback_on_error (provider : ReasoningProvider)
    (fileA fileB : GitHubFile)
    (hne : fileA.content ≠ fileB.content)
    (hfail : provider.fuseCall fileA fileB = Except.error ()) :
    mergeFileContents provider fileA fileB =
      { path := fileA.path
        content := fileA.content
        type := fileA.type
        changes := [] } := by
  unfold mergeFileContents
  simp [hne, hfail]

theorem mergeFileContents_fallback_on_error_witness :
    mergeFileContents failingProvider sampleA sampleB =
      { path := "x.txt", content := "hello A", type := "text", changes := [] } :=
  mergeFileContents_fallback_on_error failingProvider sampleA sampleB
    (by decide) rfl

/-- Claim C9: when the provider call succeeds but the parsed response
lacks a `mergedContent` field or carries the empty string there, the
result's content is Side A's; when the response lacks a `changes` field,
the change list is empty — the Side-A fallback covers well-formed but
incomplete responses, not only thrown exceptions. -/
theorem mergeFileContents_incomplete_response (provider : ReasoningProvider)
    (fileA fileB : GitHubFile) (r : FusionResponse)
    (hne : fileA.content ≠ fileB.content)
    (hok : provider.fuseCall fileA fileB = Except.ok r) :
    ((r.mergedContent = none ∨ r.mergedContent = some "") →
      (mergeFileContents provider fileA fileB).content = fileA.content) ∧
    (r.changes = none →
      (mergeFileContents provider fileA fileB).changes = []) := by
  unfold mergeFileContents
  simp only [hne, if_neg, hok, ite_false]
  refine ⟨fun h => ?_, fun h => ?_⟩
  · rcases h with h | h <;> simp [jsOrString, h]
  · simp [h]

theorem mergeFileContents_incomplete_response_witness :
    (mergeFileContents incompleteProvider sampleA sampleB).content =
      sampleA.content ∧
    (mergeFileContents incompleteProvider sampleA sampleB).changes = [] := by
  have h := mergeFileContents_incomplete_response incompleteProvider
    sampleA sampleB { mergedContent := none, changes := none } (by decide) rfl
  exact ⟨h.1 (Or.inl rfl), h.2 rfl⟩

/-- Claim C10: for every common pair, the merged file's `path` and `type`
come from Side A's file in every branch of `mergeFileContents` — the fast
path, the successful fusion, and the fallback alike; the provider can only
influence `content` and `changes`. -/
theorem mergeFileContents_path_type_from_sideA (provider : ReasoningProvider)
    (fileA fileB : GitHubFile) :
    (mergeFileContents provider fileA fileB).path = fileA.path ∧
    (mergeFileContents provider fileA fileB).type = fileA.type := by
  unfold mergeFileContents
  by_cases h : fileA.content = fileB.content
  · simp [h]
  · cases hc : provider.fuseCall fileA fileB with
    | ok r => simp [h, hc]
    | error e => simp [h, hc]

/-- Claim C5: for a common pair with byte-identical contents, the fuser
returns the shared content with an empty change list for every provider
(so no external call can matter), and the analyzer emits no conflict for
any pair of sides whose common paths all carry identical content, again
for every provider. -/
theorem identical_content_fast_path (provider : ReasoningProvider)
    (fileA fileB : GitHubFile) (heq : fileA.content = fileB.content) :
    mergeFileContents provider fileA fileB =
      { path := fileA.path
        content := fileA.content
        type := fileA.type
        changes := [] } ∧
    ∀ workspaceA workspaceB : List GitHubFile,
      (∀ fA ∈ workspaceA, ∀ fB ∈ workspaceB,
        fA.path = fB.path → fA.content = fB.content) →
      detectConflicts provider workspaceA workspaceB = [] := by
  constructor
  · unfold mergeFileContents
    simp [heq]
  · intro workspaceA workspaceB hall
    unfold detectConflicts
    rw [List.filterMap_eq_nil_iff]
    intro fA hmem
    have hfA : fA ∈ workspaceA := by
      have := hmem
      simp only [analyzeFileStructures, List.mem_filter] at this
      exact this.1
    cases hfind : workspaceB.find? (fun f => f.path == fA.path) with
    | none => rfl
    | some fB =>
      have hpeq : fB.path = fA.path := by
        have := List.find?_some hfind
        simpa using this
      have hfB : fB ∈ workspaceB := List.mem_of_find?_eq_some hfind
      have hceq : fA.content = fB.content := hall fA hfA fB hfB hpeq.symm
      simp [hceq]

theorem identical_content_fast_path_witness :
    mergeFileContents failingProvider sampleC sampleD =
      { path := "x.txt", content := "hello", type := "text", changes := [] } ∧
    detectConflicts failingProvider [sampleC] [sampleD] = [] := by
  have h := identical_content_fast_path failingProvider sampleC sampleD rfl
  exact ⟨h.1, h.2 [sampleC] [sampleD] (by decide)⟩

/-- Claim C2: a merge request is accepted exactly when the job's status is
"pending": any other status is answered with the rejection message and
leaves every field of the stored job unchanged; acceptance stores the job
with status "processing", and a second request against that stored job is
rejected without mutation — so a job transitions to "processing" at most
once. -/
theorem handleMergeRequest_pending_guard (job : MergeJob) :
    (job.status ≠ "pending" →
      handleMergeRequest (some job) =
        (some job,
          MergeRequestOutcome.rejected "Merge job is not in pending status")) ∧
    (job.status = "pending" →
      handleMergeRequest (some job) =
        (some { job with status := "processing" },
          MergeRequestOutcome.started)) ∧
    (∀ job2, handleMergeRequest (some job) =
        (some job2, MergeRequestOutcome.started) →
      handleMergeRequest (some job2) =
        (some job2,
          MergeRequestOutcome.rejected "Merge job is not in pending status")) := by
  refine ⟨fun hne => ?_, fun hp => ?_, fun job2 hstep => ?_⟩
  · simp [handleMergeRequest, hne]
  · simp [handleMergeRequest, hp]
  · by_cases hp : job.status = "pending"
    · have h2 : job2 = { job with status := "processing" } := by
        simp [handleMergeRequest, hp] at hstep
        exact hstep.symm
      subst h2
      simp [handleMergeRequest]
    · simp [handleMergeRequest, hp] at hstep

theorem handleMergeRequest_pending_guard_witness :
    handleMergeRequest (some pendingJob) =
      (some { pendingJob with status := "processing" },
        MergeRequestOutcome.started) ∧
    handleMergeRequest (some { pendingJob with status := "processing" }) =
      (some { pendingJob with status := "processing" },
        MergeRequestOutcome.rejected "Merge job is not in pending status") ∧
    handleMergeRequest
        (some { pendingJob with status := "completed" }) =
      (some { pendingJob with status := "completed" },
        MergeRequestOutcome.rejected "Merge job is not in pending status") := by
  refine ⟨(handleMergeRequest_pending_guard pendingJob).2.1 rfl, ?_, ?_⟩
  · exact (handleMergeRequest_pending_guard pendingJob).2.2
      { pendingJob with status := "processing" }
      ((handleMergeRequest_pending_guard pendingJob).2.1 rfl)
  · exact (handleMergeRequest_pending_guard
      { pendingJob with status := "completed" }).1 (by decide)

/-- Claim C3: when each side's paths are duplicate-free, the three
partitions of `analyzeFileStructures` cover, as path sets, exactly the
union of the two sides' paths, their pairwise intersections are empty, and
a path present on both sides lands in `commonFiles` regardless of content
equality. -/
theorem analyzeFileStructures_partition (workspaceA workspaceB : List GitHubFile)
    (_hA : (pathsOf workspaceA).Nodup) (_hB : (pathsOf workspaceB).Nodup) :
    (∀ p,
      (p ∈ pathsOf (analyzeFileStructures workspaceA workspaceB).uniqueToA ∨
       p ∈ pathsOf (analyzeFileStructures workspaceA workspaceB).uniqueToB ∨
       p ∈ pathsOf (analyzeFileStructures workspaceA workspaceB).commonFiles) ↔
      (p ∈ pathsOf workspaceA ∨ p ∈ pathsOf workspaceB)) ∧
    (∀ p, ¬ (p ∈ pathsOf (analyzeFileStructures workspaceA workspaceB).uniqueToA ∧
             p ∈ pathsOf (analyzeFileStructures workspaceA workspaceB).uniqueToB)) ∧
    (∀ p, ¬ (p ∈ pathsOf (analyzeFileStructures workspaceA workspaceB).uniqueToA ∧
             p ∈ pathsOf (analyzeFileStructures workspaceA workspaceB).commonFiles)) ∧
    (∀ p, ¬ (p ∈ pathsOf (analyzeFileStructures workspaceA workspaceB).uniqueToB ∧
             p ∈ pathsOf (analyzeFileStructures workspaceA workspaceB).commonFiles)) ∧
    (∀ p, p ∈ pathsOf workspaceA → p ∈ pathsOf workspaceB →
      p ∈ pathsOf (analyzeFileStructures workspaceA workspaceB).commonFiles) := by
  simp only [mem_pathsOf_uniqueToA, mem_pathsOf_uniqueToB,
    mem_pathsOf_commonFiles]
  refine ⟨fun p => ?_, fun p => ?_, fun p => ?_, fun p => ?_, fun p hpa hpb => ?_⟩
  · constructor
    · rintro (⟨h, _⟩ | ⟨h, _⟩ | ⟨h, _⟩)
      · exact Or.inl h
      · exact Or.inr h
      · exact Or.inl h
    · rintro (h | h)
      · by_cases hb : p ∈ pathsOf workspaceB
        · exact Or.inr (Or.inr ⟨h, hb⟩)
        · exact Or.inl ⟨h, hb⟩
      · by_cases ha : p ∈ pathsOf workspaceA
        · exact Or.inr (Or.inr ⟨ha, h⟩)
        · exact Or.inr (Or.inl ⟨h, ha⟩)
  · rintro ⟨⟨_, hnb⟩, ⟨hb, _⟩⟩
    exact hnb hb
  · rintro ⟨⟨_, hnb⟩, ⟨_, hb⟩⟩
    exact hnb hb
  · rintro ⟨⟨_, hna⟩, ⟨ha, _⟩⟩
    exact hna ha
  · exact ⟨hpa, hpb⟩

theorem analyzeFileStructures_partition_witness :
    (pathsOf [aOnly, sampleA]).Nodup ∧
    (pathsOf [bOnly, sampleB]).Nodup ∧
    pathsOf (analyzeFileStructures [aOnly, sampleA] [bOnly, sampleB]).uniqueToA =
      ["a.txt"] ∧
    pathsOf (analyzeFileStructures [aOnly, sampleA] [bOnly, sampleB]).uniqueToB =
      ["b.txt"] ∧
    pathsOf (analyzeFileStructures [aOnly, sampleA] [bOnly, sampleB]).commonFiles =
      ["x.txt"] ∧
    ("x.txt" ∈ pathsOf [aOnly, sampleA] →
      "x.txt" ∈ pathsOf [bOnly, sampleB] →
      "x.txt" ∈ pathsOf
        (analyzeFileStructures [aOnly, sampleA] [bOnly, sampleB]).commonFiles) := by
  refine ⟨by decide, by decide, by decide, by decide, by decide, ?_⟩
  exact (analyzeFileStructures_partition [aOnly, sampleA] [bOnly, sampleB]
    (by decide) (by decide)).2.2.2.2 "x.txt"

/-- Claim C4: a provider call that throws (or a response that parses to an
object without a `hasConflict` field, such as the empty object) makes the
analyzer emit no conflict for that pair, and with a provider whose every
call throws, `detectConflicts` returns the empty list rather than
propagating the failure. -/
theorem analyzeFileConflict_fail_open (provider : ReasoningProvider)
    (fileA fileB : GitHubFile)
    (h : provider.analyzeCall fileA fileB = Except.error () ∨
      ∃ r, provider.analyzeCall fileA fileB = Except.ok r ∧
        r.hasConflict = none) :
    analyzeFileConflict provider fileA fileB = none ∧
    ∀ workspaceA workspaceB : List GitHubFile,
      (∀ gA gB, provider.analyzeCall gA gB = Except.error ()) →
      detectConflicts provider workspaceA workspaceB = [] := by
  constructor
  · unfold analyzeFileConflict
    rcases h with h | ⟨r, hok, hnone⟩
    · simp [h]
    · simp [hok, jsTruthy, hnone]
  · intro workspaceA workspaceB hall
    unfold detectConflicts
    rw [List.filterMap_eq_nil_iff]
    intro fA _
    cases hfind : workspaceB.find? (fun f => f.path == fA.path) with
    | none => rfl
    | some fB =>
      by_cases hc : fA.content = fB.content
      · simp [hc]
      · simp only [hc, ne_eq, not_false_eq_true, if_true]
        unfold analyzeFileConflict
        simp [hall]

theorem analyzeFileConflict_fail_open_witness :
    analyzeFileConflict failingProvider sampleA sampleB = none ∧
    detectConflicts failingProvider [sampleA] [sampleB] = [] := by
  have h := analyzeFileConflict_fail_open failingProvider sampleA sampleB
    (Or.inl rfl)
  exact ⟨h.1, h.2 [sampleA] [sampleB] (fun _ _ => rfl)⟩

theorem linesAdded_flatten (mergedFiles : List MergedFile) :
    (mergedFiles.map (fun file =>
      (file.changes.filter (fun c => decide (c.type = ChangeType.added))).length)).sum =
    (((mergedFiles.map (·.changes)).flatten).filter
      (fun c => decide (c.type = ChangeType.added))).length := by
  induction mergedFiles with
  | nil => simp
  | cons f fs ih => simp [List.filter_append, ih]

/-- Claim C6: the summary's `totalFiles` is the number of distinct paths
in the union of the two sides' paths, `mergedFiles` and
`conflictsResolved` are the lengths of the respective inputs, `linesAdded`
counts the `added`-kind change entries across all merged files (not a
content diff), and `recommendations` is a fixed static list of four
strings independent of every input. -/
theorem generateSummary_fields (workspaceA workspaceB : List GitHubFile)
    (mergedFiles : List MergedFile) (conflicts : List Conflict) :
    (generateSummary workspaceA workspaceB mergedFiles conflicts).totalFiles =
      (pathsOf workspaceA ++ pathsOf workspaceB).toFinset.card ∧
    (generateSummary workspaceA workspaceB mergedFiles conflicts).mergedFiles =
      mergedFiles.length ∧
    (generateSummary workspaceA workspaceB mergedFiles conflicts).conflictsResolved =
      conflicts.length ∧
    (generateSummary workspaceA workspaceB mergedFiles conflicts).linesAdded =
      (((mergedFiles.map (·.changes)).flatten).filter
        (fun c => decide (c.type = ChangeType.added))).length ∧
    (generateSummary workspaceA workspaceB mergedFiles conflicts).recommendations =
      [ "Review merged files for proper functionality"
      , "Test the integrated codebase thoroughly"
      , "Update documentation to reflect changes"
      , "Consider refactoring common patterns" ] ∧
    (generateSummary workspaceA workspaceB mergedFiles conflicts).recommendations.length = 4 := by
  refine ⟨?_, rfl, rfl, ?_, rfl, rfl⟩
  · show (pathsOf workspaceA ++ pathsOf workspaceB).dedup.length = _
    rw [List.card_toFinset]
  · exact linesAdded_flatten mergedFiles

/-- Claim C7: every conflict the analyzer emits carries exactly three
options in the fixed order use-A, use-B, AI-recommended merge; the first
two previews are built from at most 200 characters of the corresponding
side's content, and the third preview is the recommendation text. -/
theorem conflict_options_shape (provider : ReasoningProvider)
    (fileA fileB : GitHubFile) (conflict : Conflict)
    (h : analyzeFileConflict provider fileA fileB = some conflict) :
    conflict.options =
      [ { id := "use_a"
          description := "Use Version A"
          preview := takeChars fileA.content 200 ++ "..." }
      , { id := "use_b"
          description := "Use Version B"
          preview := takeChars fileB.content 200 ++ "..." }
      , { id := "ai_merge"
          description := "AI Recommended Merge"
          preview := conflict.recommendation } ] ∧
    conflict.options.length = 3 ∧
    (takeChars fileA.content 200).length ≤ 200 ∧
    (takeChars fileB.content 200).length ≤ 200 := by
  unfold analyzeFileConflict at h
  cases hc : provider.analyzeCall fileA fileB with
  | error e => simp [hc] at h
  | ok r =>
    rw [hc] at h
    by_cases ht : jsTruthy r.hasConflict
    · simp only [ht, if_true] at h
      obtain rfl := Option.some.inj h
      exact ⟨rfl, rfl, takeChars_length_le _ _, takeChars_length_le _ _⟩
    · simp [ht] at h

theorem conflict_options_shape_witness :
    sampleConflict.options =
      [ { id := "use_a"
          description := "Use Version A"
          preview := takeChars sampleA.content 200 ++ "..." }
      , { id := "use_b"
          description := "Use Version B"
          preview := takeChars sampleB.content 200 ++ "..." }
      , { id := "ai_merge"
          description := "AI Recommended Merge"
          preview := sampleConflict.recommendation } ] ∧
    sampleConflict.options.length = 3 ∧
    (takeChars sampleA.content 200).length ≤ 200 ∧
    (takeChars sampleB.content 200).length ≤ 200 :=
  conflict_options_shape verdictProvider sampleA sampleB sampleConflict rfl

/-- Claim C8: a file present on exactly one side bypasses the provider
(the result holds for every provider) and contributes a merged file with
that file's path, content and type whose change list is the single entry
added/line 1/file content tagged with the side of origin. -/
theorem performAIMerge_unique_passthrough (provider : ReasoningProvider)
    (workspaceA workspaceB : List GitHubFile) (conflicts : List Conflict)
    (file : GitHubFile) :
    (file ∈ workspaceA → file.path ∉ pathsOf workspaceB →
      ({ path := file.path
         content := file.content
         type := file.type
         changes :=
           [ { type := ChangeType.added
               lineNumber := 1
               content := file.content
               source := ChangeSource.workspace_a } ] } : MergedFile) ∈
        performAIMerge provider workspaceA workspaceB conflicts) ∧
    (file ∈ workspaceB → file.path ∉ pathsOf workspaceA →
      ({ path := file.path
         content := file.content
         type := file.type
         changes :=
           [ { type := ChangeType.added
               lineNumber := 1
               content := file.content
               source := ChangeSource.workspace_b } ] } : MergedFile) ∈
        performAIMerge provider workspaceA workspaceB conflicts) := by
  constructor
  · intro hmem hnot
    simp only [performAIMerge]
    refine List.mem_append_left _ (List.mem_append_left _ ?_)
    refine List.mem_map.mpr ⟨file, ?_, rfl⟩
    exact List.mem_filter.mpr ⟨hmem, decide_eq_true hnot⟩
  · intro hmem hnot
    simp only [performAIMerge]
    refine List.mem_append_left _ (List.mem_append_right _ ?_)
    refine List.mem_map.mpr ⟨file, ?_, rfl⟩
    exact List.mem_filter.mpr ⟨hmem, decide_eq_true hnot⟩

theorem performAIMerge_unique_passthrough_witness :
    ({ path := "a.txt"
       content := "A"
       type := "text"
       changes :=
         [ { type := ChangeType.added
             lineNumber := 1
             content := "A"
             source := ChangeSource.workspace_a } ] } : MergedFile) ∈
      performAIMerge failingProvider [aOnly] [bOnly] [] ∧
    ({ path := "b.txt"
       content := "B"
       type := "text"
       changes :=
         [ { type := ChangeType.added
             lineNumber := 1
             content := "B"
             source := ChangeSource.workspace_b } ] } : MergedFile) ∈
      performAIMerge failingProvider [aOnly] [bOnly] [] := by
  constructor
  · exact (performAIMerge_unique_passthrough failingProvider [aOnly] [bOnly]
      [] aOnly).1 (by decide) (by decide)
  · exact (performAIMerge_unique_passthrough failingProvider [aOnly] [bOnly]
      [] bOnly).2 (by decide) (by decide)

end CodeMergeBot
